import Mathlib

/-!
Verification of the ask_ai_dagster ingestion pipeline.

Shallow embedding of the repository's core components:
* `GithubResource._query` (cursor pagination over a GraphQL search endpoint),
* `GithubResource.convert_issues_to_documents` / `convert_discussions_to_documents`
  (record normalization into LangChain documents),
* `SitemapScraperResource.scrape_url` (HTML content extraction),
* `DocumentIOManager.handle_output` / `load_input` (JSON persistence of documents).

Python run-time values are embedded as a JSON-like inductive type `JValue`;
Python attribute/subscript access and its exceptions are embedded as
`Except PyErr` computations mirroring the exact access pattern of the source
(`dict.get` with and without default, `in` tests, `[]` subscripts, `for`
iteration, truthiness).
-/

namespace AskAI

/-- Embedding of the Python run-time values flowing through the pipeline
(JSON scalars, lists and string-keyed mappings). -/
inductive JValue where
  | null
  | bool (b : Bool)
  | num (n : Int)
  | str (s : String)
  | arr (xs : List JValue)
  | obj (fields : List (String × JValue))

/-- The Python exceptions the embedded code can raise. -/
inductive PyErr where
  | attributeError
  | typeError
  | keyError
  | validationError
  | transportError
deriving DecidableEq, Repr

namespace JValue

mutual
/-- Python `==` on the embedded values (structural equality; the numeric
cross-type coercions of Python, such as `True == 1`, never arise in the
pipeline's data and are not modelled). -/
def pyEq : JValue → JValue → Bool
  | .null, .null => true
  | .bool a, .bool b => a == b
  | .num a, .num b => a == b
  | .str a, .str b => a == b
  | .arr xs, .arr ys => pyEqList xs ys
  | .obj fs, .obj gs => pyEqFields fs gs
  | _, _ => false

/-- Elementwise Python `==` on lists. -/
def pyEqList : List JValue → List JValue → Bool
  | [], [] => true
  | x :: xs, y :: ys => pyEq x y && pyEqList xs ys
  | _, _ => false

/-- Entrywise Python `==` on mappings (our mappings are built in a fixed
key order, so positional comparison is adequate). -/
def pyEqFields : List (String × JValue) → List (String × JValue) → Bool
  | [], [] => true
  | (k₁, v₁) :: fs, (k₂, v₂) :: gs => k₁ == k₂ && pyEq v₁ v₂ && pyEqFields fs gs
  | _, _ => false
end

/-- Python truthiness (`bool(v)`): `None`, `False`, `0`, `""` and empty
containers are falsy, everything else is truthy. -/
def pyTruthy : JValue → Bool
  | .null => false
  | .bool b => b
  | .num n => decide (n ≠ 0)
  | .str s => decide (s ≠ "")
  | .arr xs => !xs.isEmpty
  | .obj fs => !fs.isEmpty

/-- Python `str(v)` as used inside f-strings. Container rendering is
abstracted to a fixed token (no claim evaluates it on containers). -/
def pyStr : JValue → String
  | .null => "None"
  | .bool true => "True"
  | .bool false => "False"
  | .num n => toString n
  | .str s => s
  | .arr _ => "[...]"
  | .obj _ => "\x7b...\x7d"

/-- Python `v.get(k)`: on a dict returns the value or `None`; on anything
else (including `None`) raises `AttributeError`. -/
def get1 : JValue → String → Except PyErr JValue
  | .obj fs, k => .ok ((fs.lookup k).getD .null)
  | _, _ => .error .attributeError

/-- Python `v.get(k, d)`: on a dict returns the value or the default `d`;
on anything else raises `AttributeError`. -/
def getD : JValue → String → JValue → Except PyErr JValue
  | .obj fs, k, d => .ok ((fs.lookup k).getD d)
  | _, _, _ => .error .attributeError

/-- Helper for Python `in` on strings: `listPrefixOf pat cs` is true when
`pat` is an initial segment of `cs`. -/
def listPrefixOf : List Char → List Char → Bool
  | [], _ => true
  | _ :: _, [] => false
  | a :: as, b :: bs => a == b && listPrefixOf as bs

/-- Helper for Python `in` on strings: contiguous-substring test. -/
def listSubOf (pat : List Char) : List Char → Bool
  | [] => pat.isEmpty
  | b :: bs => listPrefixOf pat (b :: bs) || listSubOf pat bs

/-- Python `k in v`: key test on dicts, element test on lists, substring
test on strings; raises `TypeError` on non-containers (including `None`). -/
def hasKey : JValue → String → Except PyErr Bool
  | .obj fs, k => .ok (fs.lookup k).isSome
  | .arr xs, k => .ok (xs.any (fun x => pyEq x (.str k)))
  | .str s, k => .ok (listSubOf k.data s.data)
  | _, _ => .error .typeError

/-- Python `v[k]` with a string key: dict lookup raising `KeyError` when the
key is absent; `TypeError` on anything that is not a dict. -/
def item : JValue → String → Except PyErr JValue
  | .obj fs, k =>
    match fs.lookup k with
    | some v => .ok v
    | none => .error .keyError
  | _, _ => .error .typeError

/-- Python `for x in v`: lists yield their elements, strings their
characters, dicts their keys; anything else raises `TypeError`. -/
def iter : JValue → Except PyErr (List JValue)
  | .arr xs => .ok xs
  | .str s => .ok (s.data.map (fun c => .str (String.mk [c])))
  | .obj fs => .ok (fs.map (fun kv => .str kv.1))
  | _ => .error .typeError

end JValue

/-- Whether an embedded Python computation completed without raising. -/
def isOkE {α : Type} : Except PyErr α → Bool
  | .ok _ => true
  | .error _ => false

/-- The canonical output unit (LangChain `Document`): page text plus a
string-keyed metadata mapping. -/
structure Document where
  page_content : String
  metadata : List (String × JValue)

/-! ## GithubResource._query (src/ask_ai_dagster/defs/resources/github.py:44-72) -/

/-- The Python local variable `query` of `GithubResource._query`: it starts
as the template string (which supports `.replace`) and is rebound by
`query = gql(query.replace(...))` to a parsed GraphQL document (which does
not). -/
inductive QueryVar where
  | tmpl (s : String)
  | parsed (s : String)
deriving DecidableEq

/-- The cursor substitution text of `GithubResource._query` (line 56):
`f'"{cursor}"' if cursor else "null"`. -/
def renderCursor (cursor : JValue) : String :=
  if cursor.pyTruthy then "\"" ++ cursor.pyStr ++ "\"" else "null"

/-- Python `query.replace(pat, sub)`: available on the template string, an
`AttributeError` on the parsed document object returned by `gql`. -/
def qvReplace : QueryVar → String → String → Except PyErr String
  | .tmpl s, pat, sub => .ok (s.replace pat sub)
  | .parsed _, _, _ => .error .attributeError

/-- The `while True` loop of `GithubResource._query`. The server is
embedded as the list of responses it would return to successive `execute`
calls; an exhausted list stands for an unrecovered transport failure. -/
def queryLoop (qv : QueryVar) (cursor : JValue) (acc : List JValue) :
    List JValue → Except PyErr (List JValue)
  | [] => .error .transportError
  | resp :: rest => do
    let qs ← qvReplace qv "CURSOR_PLACEHOLDER" (renderCursor cursor)
    let search ← resp.get1 "search"
    let edges ← search.get1 "edges"
    let edgeList ← edges.iter
    let nodes ← edgeList.mapM (fun edge => edge.get1 "node")
    let acc2 := acc ++ nodes
    let hasNext ← do
      let pageInfo ← search.get1 "pageInfo"
      pageInfo.get1 "hasNextPage"
    if hasNext.pyTruthy then do
      let pageInfo2 ← search.get1 "pageInfo"
      let endCur ← pageInfo2.get1 "endCursor"
      queryLoop (.parsed qs) endCur acc2 rest
    else
      .ok acc2

/-- The entry point `GithubResource._query`: starts with `cursor = None`,
an empty accumulator, and the template string bound to the loop variable
`query`. -/
def githubQuery (template : String) (responses : List JValue) :
    Except PyErr (List JValue) :=
  queryLoop (.tmpl template) .null [] responses

/-- A well-formed server response page:
`{search: {edges: [{node: ...}], pageInfo: {hasNextPage, endCursor}}}`. -/
def mkPage (nodes : List JValue) (hasNext : Bool) (endCursor : JValue) : JValue :=
  .obj [("search", .obj
    [("edges", .arr (nodes.map (fun n => .obj [("node", n)]))),
     ("pageInfo", .obj [("hasNextPage", .bool hasNext), ("endCursor", endCursor)])])]

/-! ## Record normalization
(src/ask_ai_dagster/defs/resources/github.py:74-223) -/

/-- Python `', '.join(xs)`: joins the collected label values, raising
`TypeError` at the first non-string element, as `str.join` does. -/
def pyJoin (sep : String) (vs : List JValue) : Except PyErr String := do
  let ss ← vs.mapM (fun v =>
    match v with
    | .str s => Except.ok s
    | _ => Except.error .typeError)
  pure (String.intercalate sep ss)

/-- The `Labels:` block builder shared verbatim by both converters
(github.py:116-119 and 201-204):
`if "labels" in item and "nodes" in item["labels"]` guards a list
comprehension `[label["name"] for label in item["labels"]["nodes"]]`,
appended as one block only when the collected list is non-empty. -/
def labelsBlock (item : JValue) : Except PyErr (List String) := do
  let hl ← item.hasKey "labels"
  if hl then do
    let lv ← item.item "labels"
    let hn ← lv.hasKey "nodes"
    if hn then do
      let nodesv ← lv.item "nodes"
      let nodeList ← nodesv.iter
      let labels ← nodeList.mapM (fun l => l.item "name")
      if labels.isEmpty then pure []
      else do
        let joined ← pyJoin ", " labels
        pure ["Labels: " ++ joined]
    else pure []
  else pure []

/-- The issue metadata dict (github.py:95-108), fields evaluated in source
order; `reaction_count` defaults through `item.get("reactions", {})
.get("totalCount", 0)`. -/
def issueMetadata (item : JValue) : Except PyErr (List (String × JValue)) := do
  let idv ← item.get1 "id"
  let urlv ← item.get1 "url"
  let titlev ← item.get1 "title"
  let numberv ← item.get1 "number"
  let statev ← item.get1 "state"
  let createdv ← item.get1 "createdAt"
  let closedv ← item.get1 "closedAt"
  let reasonv ← item.get1 "stateReason"
  let reactions ← item.getD "reactions" (.obj [])
  let reactionCount ← reactions.getD "totalCount" (.num 0)
  pure [("source", .str "github_issue"), ("id", idv), ("url", urlv),
        ("title", titlev), ("number", numberv), ("state", statev),
        ("created_at", createdv), ("closed_at", closedv),
        ("state_reason", reasonv), ("reaction_count", reactionCount)]

/-- The issue comment loop body (github.py:122-124): each truthy comment
holding a `body` key contributes one `Comment:` block, in order. -/
def issueComments : List JValue → Except PyErr (List String)
  | [] => pure []
  | c :: rest =>
    if c.pyTruthy then do
      let hb ← c.hasKey "body"
      if hb then do
        let bodyv ← c.item "body"
        let more ← issueComments rest
        pure (("Comment: " ++ bodyv.pyStr) :: more)
      else issueComments rest
    else issueComments rest

/-- The guarded issue comment section (github.py:121-124):
`if "comments" in item and "nodes" in item["comments"]`. -/
def issueCommentSection (item : JValue) : Except PyErr (List String) := do
  let hc ← item.hasKey "comments"
  if hc then do
    let cv ← item.item "comments"
    let hn ← cv.hasKey "nodes"
    if hn then do
      let nodesv ← cv.item "nodes"
      let comments ← nodesv.iter
      issueComments comments
    else pure []
  else pure []

/-- The `try:` body of `convert_issues_to_documents` for one item
(github.py:94-129): metadata dict, then the `Title:`/`State:`/
`Description:` blocks, then labels, then comments, joined by blank lines. -/
def convertIssueItem (item : JValue) : Except PyErr Document := do
  let md ← issueMetadata item
  let titlev ← item.getD "title" (.str "")
  let statev ← item.getD "state" (.str "")
  let bodyv ← item.getD "bodyText" (.str "")
  let lbls ← labelsBlock item
  let cmts ← issueCommentSection item
  pure ⟨String.intercalate "\n\n"
      (["Title: " ++ titlev.pyStr, "State: " ++ statev.pyStr,
        "Description: " ++ bodyv.pyStr] ++ lbls ++ cmts), md⟩

/-- The converter `convert_issues_to_documents` (github.py:74-141): per-item `try`/
`except` that appends the converted document or logs one error and
continues. Returns the document list together with the number of error
log lines emitted. -/
def convert_issues_to_documents : List JValue → List Document × Nat
  | [] => ([], 0)
  | item :: rest =>
    match convertIssueItem item with
    | .ok d =>
      (d :: (convert_issues_to_documents rest).1,
       (convert_issues_to_documents rest).2)
    | .error _ =>
      ((convert_issues_to_documents rest).1,
       (convert_issues_to_documents rest).2 + 1)

/-- The discussion metadata dict (github.py:167-177); `category` defaults
through `item.get("category", {}).get("name")`. -/
def discussionMetadata (item : JValue) : Except PyErr (List (String × JValue)) := do
  let idv ← item.get1 "id"
  let urlv ← item.get1 "url"
  let createdv ← item.get1 "createdAt"
  let titlev ← item.get1 "title"
  let numberv ← item.get1 "number"
  let catv ← item.getD "category" (.obj [])
  let catName ← catv.get1 "name"
  let answeredv ← item.getD "isAnswered" (.bool false)
  let upvotesv ← item.getD "upvoteCount" (.num 0)
  pure [("source", .str "github_discussion"), ("id", idv), ("url", urlv),
        ("created_at", createdv), ("title", titlev), ("number", numberv),
        ("category", catName), ("is_answered", answeredv),
        ("upvote_count", upvotesv)]

/-- The accepted-answer block (github.py:185-188): emitted only when
`item.get("answer")` is truthy. -/
def answerSection (item : JValue) : Except PyErr (List String) := do
  let a ← item.get1 "answer"
  if a.pyTruthy then do
    let a2 ← item.item "answer"
    let abody ← a2.getD "bodyText" (.str "")
    pure ["Accepted Answer: " ++ abody.pyStr]
  else pure []

/-- The discussion comment loop body (github.py:191-199): each truthy
comment holding `bodyText` contributes one `Comment:` block unless its
body text equals the accepted answer's body text
(`if not item.get("answer") or comment["bodyText"] != item["answer"]
.get("bodyText")`). -/
def discussionComments (item : JValue) : List JValue → Except PyErr (List String)
  | [] => pure []
  | c :: rest =>
    if c.pyTruthy then do
      let hb ← c.hasKey "bodyText"
      if hb then do
        let a ← item.get1 "answer"
        let keep ←
          if a.pyTruthy then do
            let cb ← c.item "bodyText"
            let a2 ← item.item "answer"
            let ab ← a2.get1 "bodyText"
            pure (!JValue.pyEq cb ab)
          else pure true
        if keep then do
          let cb2 ← c.item "bodyText"
          let more ← discussionComments item rest
          pure (("Comment: " ++ cb2.pyStr) :: more)
        else discussionComments item rest
      else discussionComments item rest
    else discussionComments item rest

/-- The guarded discussion comment section (github.py:190-199). -/
def discussionCommentSection (item : JValue) : Except PyErr (List String) := do
  let hc ← item.hasKey "comments"
  if hc then do
    let cv ← item.item "comments"
    let hn ← cv.hasKey "nodes"
    if hn then do
      let nodesv ← cv.item "nodes"
      let comments ← nodesv.iter
      discussionComments item comments
    else pure []
  else pure []

/-- The `try:` body of `convert_discussions_to_documents` for one item
(github.py:166-208): metadata, `Title:`/`Category:`/`Question:` blocks,
then the accepted answer, the deduplicated comments, and the labels. -/
def convertDiscussionItem (item : JValue) : Except PyErr Document := do
  let md ← discussionMetadata item
  let titlev ← item.getD "title" (.str "")
  let catv ← item.getD "category" (.obj [])
  let catName ← catv.getD "name" (.str "Uncategorized")
  let questionv ← item.getD "bodyText" (.str "")
  let ans ← answerSection item
  let cmts ← discussionCommentSection item
  let lbls ← labelsBlock item
  pure ⟨String.intercalate "\n\n"
      (["Title: " ++ titlev.pyStr, "Category: " ++ catName.pyStr,
        "Question: " ++ questionv.pyStr] ++ ans ++ cmts ++ lbls), md⟩

/-- The converter `convert_discussions_to_documents` (github.py:143-223): same per-item
`try`/`except` skip-and-log policy as the issue converter. -/
def convert_discussions_to_documents : List JValue → List Document × Nat
  | [] => ([], 0)
  | item :: rest =>
    match convertDiscussionItem item with
    | .ok d =>
      (d :: (convert_discussions_to_documents rest).1,
       (convert_discussions_to_documents rest).2)
    | .error _ =>
      ((convert_discussions_to_documents rest).1,
       (convert_discussions_to_documents rest).2 + 1)

/-! ## SitemapScraperResource.scrape_url
(src/ask_ai_dagster/defs/scraper.py:25-55) -/

/-- Parsed HTML, as BeautifulSoup exposes it: a tree of elements and
navigable strings. -/
inductive HNode where
  | text (s : String)
  | elem (tag : String) (children : List HNode)

/-- Python `str.strip()` with no argument: drop ASCII whitespace from both
ends. -/
def pyIsSpace (c : Char) : Bool :=
  c == ' ' || c == '\t' || c == '\n' || c == '\r' ||
  c == '\x0b' || c == '\x0c'

/-- Python `s.strip()` on the embedded character list. -/
def pyStrip (s : String) : String :=
  String.mk (((s.data.dropWhile pyIsSpace).reverse.dropWhile pyIsSpace).reverse)

/-- The tag names decomposed before extraction (scraper.py:33). -/
def removedTags : List String := ["script", "style", "nav", "footer", "header"]

mutual
/-- Python `for element in soup([...]): element.decompose()`: remove every
subtree rooted at one of the given tags. -/
def decomposeTags (tags : List String) : HNode → HNode
  | .text s => .text s
  | .elem t cs => .elem t (decomposeTagsList tags cs)

/-- The decomposition over a child list; a matching element is dropped with
its whole subtree, without descending into it. -/
def decomposeTagsList (tags : List String) : List HNode → List HNode
  | [] => []
  | .text s :: rest => .text s :: decomposeTagsList tags rest
  | .elem t cs :: rest =>
    if t ∈ tags then decomposeTagsList tags rest
    else .elem t (decomposeTagsList tags cs) :: decomposeTagsList tags rest
end

mutual
/-- BeautifulSoup `soup.find(tag)`: first element with the given name in
document (depth-first, pre-) order. -/
def findTag (tag : String) : HNode → Option HNode
  | .text _ => none
  | .elem t cs => if t = tag then some (.elem t cs) else findTagList tag cs

/-- The tag search over a child list. -/
def findTagList (tag : String) : List HNode → Option HNode
  | [] => none
  | c :: rest =>
    match findTag tag c with
    | some r => some r
    | none => findTagList tag rest
end

mutual
/-- The navigable strings of a subtree in document order (`.strings`). -/
def texts : HNode → List String
  | .text s => [s]
  | .elem _ cs => textsList cs

/-- The string collection over a child list. -/
def textsList : List HNode → List String
  | [] => []
  | c :: rest => texts c ++ textsList rest
end

/-- The extraction loop of scraper.py:40-44 (equally the :46-48 fallback):
`.stripped_strings` composed with the loop's own `strip()`-and-drop-empty
filter — each string stripped, whitespace-only strings dropped. -/
def strippedStrings (n : HNode) : List String :=
  ((texts n).map pyStrip).filter (fun s => decide (s ≠ ""))

/-- BeautifulSoup `tag.string` (used for the title): the single navigable string reached
through single-child tags, otherwise `None`. -/
def hstring : HNode → Option String
  | .text s => some s
  | .elem _ [c] => hstring c
  | .elem _ _ => none

/-- The body of `scrape_url` after a successful fetch and parse
(scraper.py:30-52): decompose non-content tags, take the title, choose the
content region (`main`, else `article`, else `body`; a found bs4 `Tag` is
always truthy), join the stripped strings of the region — or of the whole
remaining soup when no region exists — with newlines. -/
def scrapeBodyDoc (url : String) (soup₀ : HNode) : Document :=
  let soup := decomposeTags removedTags soup₀
  let title : JValue :=
    match findTag "title" soup with
    | some t =>
      match hstring t with
      | some s => .str s
      | none => .null
    | none => .str ""
  let mainContent :=
    ((findTag "main" soup).orElse (fun _ => findTag "article" soup)).orElse
      (fun _ => findTag "body" soup)
  let textContent :=
    match mainContent with
    | some region => String.intercalate "\n" (strippedStrings region)
    | none => String.intercalate "\n" (strippedStrings soup)
  ⟨textContent, [("source", .str url), ("title", title)]⟩

/-- Everything inside the `try:` of `scrape_url`: the fetch-and-parse step
is embedded as its outcome (`.error` when `requests.get`/parsing raises,
`.ok` with the parsed tree otherwise); the rest of the body is total. -/
def scrapeUrlBody (url : String) (fetched : Except PyErr HNode) :
    Except PyErr Document := do
  let soup ← fetched
  pure (scrapeBodyDoc url soup)

/-- The scraper `scrape_url` (scraper.py:25-55): the whole body runs under
`try ... except Exception`, which logs and returns `None`; the caller only
ever sees a `Document` or an absent result. -/
def scrape_url (url : String) (fetched : Except PyErr HNode) : Option Document :=
  match scrapeUrlBody url fetched with
  | .ok d => some d
  | .error _ => none

/-! ## DocumentIOManager (src/ask_ai_dagster/defs/io_managers.py:8-39) -/

/-- The persisted JSON shape of one document (io_managers.py:18-21):
`{"page_content": ..., "metadata": ...}`. -/
def serializeDoc (d : Document) : JValue :=
  .obj [("page_content", .str d.page_content), ("metadata", .obj d.metadata)]

/-- The base directory, embedded as a map from file name to the JSON value
the file holds (`json.dump`/`json.load` round-trip JSON values exactly). -/
def FileStore := String → Option JValue

/-- The writer `DocumentIOManager.handle_output` (io_managers.py:13-24): serialize the
documents and write them to `<asset key>.json`. -/
def handle_output (store : FileStore) (assetKey : String)
    (docs : List Document) : FileStore :=
  fun p =>
    if p = assetKey ++ ".json" then some (.arr (docs.map serializeDoc))
    else store p

/-- One record of the loader (io_managers.py:37),
`Document(page_content=doc["page_content"], metadata=doc["metadata"])`:
subscripts raise on a malformed record, and LangChain
validates that `page_content` is a string and `metadata` a mapping. -/
def parseDoc (v : JValue) : Except PyErr Document := do
  let pc ← v.item "page_content"
  let mdv ← v.item "metadata"
  match pc, mdv with
  | .str s, .obj fs => pure ⟨s, fs⟩
  | _, _ => .error .validationError

/-- The reader `DocumentIOManager.load_input` (io_managers.py:26-39): a missing file
yields `[]`; otherwise parse each serialized record back into a document. -/
def load_input (store : FileStore) (assetKey : String) :
    Except PyErr (List Document) :=
  match store (assetKey ++ ".json") with
  | none => pure []
  | some v => do
    let docs ← v.iter
    docs.mapM parseDoc

/-! ## Sample inputs and outputs used by concrete witnesses -/

/-- The document produced for the empty (fully sparse) issue record. -/
def issueEmptyDoc : Document :=
  ⟨"Title: \n\nState: \n\nDescription: ",
   [("source", .str "github_issue"), ("id", .null), ("url", .null),
    ("title", .null), ("number", .null), ("state", .null),
    ("created_at", .null), ("closed_at", .null), ("state_reason", .null),
    ("reaction_count", .num 0)]⟩

/-- The document produced for the empty (fully sparse) discussion record. -/
def discussionEmptyDoc : Document :=
  ⟨"Title: \n\nCategory: Uncategorized\n\nQuestion: ",
   [("source", .str "github_discussion"), ("id", .null), ("url", .null),
    ("created_at", .null), ("title", .null), ("number", .null),
    ("category", .null), ("is_answered", .bool false),
    ("upvote_count", .num 0)]⟩

/-- A minimal issue record carrying a title, a state and a body. -/
def issueSampleFields : List (String × JValue) :=
  [("title", .str "T"), ("state", .str "OPEN"), ("bodyText", .str "B")]

/-- The document produced for `issueSampleFields`. -/
def issueSampleDoc : Document :=
  ⟨"Title: T\n\nState: OPEN\n\nDescription: B",
   [("source", .str "github_issue"), ("id", .null), ("url", .null),
    ("title", .str "T"), ("number", .null), ("state", .str "OPEN"),
    ("created_at", .null), ("closed_at", .null), ("state_reason", .null),
    ("reaction_count", .num 0)]⟩

/-- The document produced by scraping a page that is a bare text node. -/
def scrapedSampleDoc : Document :=
  ⟨"hi", [("source", .str "https://example.com/a"), ("title", .str "")]⟩

/-- An issue record whose normalization raises: it holds null for
`reactions`, so `item.get("reactions", {}).get("totalCount", 0)` raises
`AttributeError`. -/
def issueBadRecord : JValue := .obj [("reactions", .null)]

/-- A discussion comment record: `{"bodyText": body}`. -/
def mkComment (body : String) : JValue := .obj [("bodyText", .str body)]

/-- A discussion record with a title, a named category, a question body, an
accepted answer and a list of comments. -/
def mkDiscussion (title cat question answerBody : String)
    (commentBodies : List String) : JValue :=
  .obj [("title", .str title),
        ("category", .obj [("name", .str cat)]),
        ("bodyText", .str question),
        ("answer", .obj [("bodyText", .str answerBody)]),
        ("comments", .obj [("nodes", .arr (commentBodies.map mkComment))])]

/-- An HTML page whose content sits in a `<main>` region that also carries
a `<script>` subtree. -/
def mainPage (s t : String) : HNode :=
  .elem "html" [.elem "body"
    [.elem "main" [.text s, .elem "script" [.text t]]]]

/-- An HTML page with an `<article>` region (and no `<main>`). -/
def articlePage (s t : String) : HNode :=
  .elem "html" [.elem "body"
    [.elem "article" [.text s, .elem "script" [.text t]]]]

/-- An HTML page whose content sits directly in `<body>`. -/
def bodyOnlyPage (s t : String) : HNode :=
  .elem "html" [.elem "body" [.text s, .elem "script" [.text t]]]

/-! ## Helper lemmas -/

/-- Destructor for one monadic step of an embedded Python computation. -/
theorem bind_ok_iff {α β : Type} {e : Except PyErr α} {k : α → Except PyErr β}
    {b : β} : (e >>= k) = .ok b ↔ ∃ a, e = .ok a ∧ k a = .ok b := by
  cases e <;> simp [Bind.bind, Except.bind]

/-- A record without a `labels` key gets no `Labels:` block and no error
from the labels step. -/
theorem labelsBlock_no_labels (fs : List (String × JValue))
    (hl : fs.lookup "labels" = none) : labelsBlock (.obj fs) = .ok [] := by
  simp [labelsBlock, JValue.hasKey, hl, bind, Except.bind, pure, Except.pure]

/-- An issue record without a `comments` key gets no `Comment:` blocks and
no error from the comments step. -/
theorem issueCommentSection_no_comments (fs : List (String × JValue))
    (hc : fs.lookup "comments" = none) :
    issueCommentSection (.obj fs) = .ok [] := by
  simp [issueCommentSection, JValue.hasKey, hc, bind, Except.bind, pure,
    Except.pure]

/-- A discussion record without a `comments` key gets no `Comment:` blocks
and no error from the comments step. -/
theorem discussionCommentSection_no_comments (fs : List (String × JValue))
    (hc : fs.lookup "comments" = none) :
    discussionCommentSection (.obj fs) = .ok [] := by
  simp [discussionCommentSection, JValue.hasKey, hc, bind, Except.bind, pure,
    Except.pure]

/-- A discussion record without an `answer` key gets no `Accepted Answer:`
block and no error from the answer step. -/
theorem answerSection_no_answer (fs : List (String × JValue))
    (ha : fs.lookup "answer" = none) : answerSection (.obj fs) = .ok [] := by
  simp [answerSection, JValue.get1, ha, JValue.pyTruthy, bind, Except.bind,
    pure, Except.pure]

/-- The issue metadata mapping always opens with
`("source", "github_issue")`. -/
theorem issueMetadata_source (item : JValue) (md : List (String × JValue))
    (h : issueMetadata item = .ok md) :
    md.lookup "source" = some (.str "github_issue") := by
  simp only [issueMetadata, bind_ok_iff, pure, Except.pure,
    Except.ok.injEq] at h
  obtain ⟨a₁, -, a₂, -, a₃, -, a₄, -, a₅, -, a₆, -, a₇, -, a₈, -, a₉, -, a₀, -,
    hmd⟩ := h
  subst hmd
  rfl

/-- The discussion metadata mapping always opens with
`("source", "github_discussion")`. -/
theorem discussionMetadata_source (item : JValue) (md : List (String × JValue))
    (h : discussionMetadata item = .ok md) :
    md.lookup "source" = some (.str "github_discussion") := by
  simp only [discussionMetadata, bind_ok_iff, pure, Except.pure,
    Except.ok.injEq] at h
  obtain ⟨a₁, -, a₂, -, a₃, -, a₄, -, a₅, -, a₆, -, a₇, -, a₈, -, a₉, -,
    hmd⟩ := h
  subst hmd
  rfl

/-! ## Claim theorems -/

/-- C1 (code bug evidence). The pagination of `_query` terminates at
the first page reporting `hasNextPage = false` only when that page is the
very first one; as soon as a page reports `hasNextPage = true` the
follow-up iteration raises `AttributeError`, because line 54 rebinds the
loop variable `query` to the parsed document returned by `gql`, which has
no `.replace` method. The claim's multi-page accumulation is therefore
unreachable: a two-page server aborts with `AttributeError` instead of
returning both nodes, while a one-page server returns its nodes. -/
theorem query_second_page_raises_attribute_error :
    githubQuery "search(after: CURSOR_PLACEHOLDER)"
        [mkPage [.str "n1"] true (.str "cursor1"),
         mkPage [.str "n2"] false .null]
      = .error .attributeError
  ∧ githubQuery "search(after: CURSOR_PLACEHOLDER)"
        [mkPage [.str "n1"] false .null]
      = .ok [.str "n1"] :=
  ⟨rfl, rfl⟩

/-- C2 (counterexample). Substituting the empty-string cursor renders
the literal `null`, not a double-quoted string: `f'"{cursor}"' if cursor
else "null"` tests Python truthiness, and the empty string is falsy. -/
theorem renderCursor_empty_cursor_renders_null :
    renderCursor (.str "") = "null" ∧ renderCursor (.str "") ≠ "\"\"" :=
  ⟨rfl, by decide⟩

/-- C2 (amended). The substitution renders the unquoted literal `null`
for every falsy cursor — `null` and the empty string alike — and renders
every non-empty string cursor as a double-quoted token. -/
theorem renderCursor_quotes_exactly_truthy_cursors (c : JValue) :
    (c.pyTruthy = false → renderCursor c = "null")
  ∧ (∀ s : String, c = .str s → s ≠ "" →
      renderCursor c = "\"" ++ s ++ "\"") := by
  constructor
  · intro h
    simp [renderCursor, h]
  · rintro s rfl hs
    simp [renderCursor, JValue.pyTruthy, JValue.pyStr, hs]

/-- Witness for the amended C2 at the concrete cursors `null` and
`"abc"`. -/
theorem renderCursor_quotes_exactly_truthy_cursors_witness :
    renderCursor .null = "null"
  ∧ renderCursor (.str "abc") = "\"" ++ "abc" ++ "\"" :=
  ⟨(renderCursor_quotes_exactly_truthy_cursors .null).1 rfl,
   (renderCursor_quotes_exactly_truthy_cursors (.str "abc")).2 "abc" rfl
     (by decide)⟩

/-- C7. The scraper `scrape_url` wraps its whole body in `try ... except
Exception`: a failed fetch (or any raising step, embedded as an `.error`
outcome of fetch-and-parse) yields `None` after logging, and a successful
fetch yields exactly one document; no exception reaches the caller, as the
function is total into `Option Document`. -/
theorem scrape_url_absorbs_failures (url : String) (e : PyErr) (root : HNode) :
    scrape_url url (.error e) = none
  ∧ scrape_url url (.ok root) = some (scrapeBodyDoc url root) :=
  ⟨rfl, rfl⟩

/-- One serialized document parses back to itself. -/
theorem parseDoc_serializeDoc (d : Document) : parseDoc (serializeDoc d) = .ok d :=
  rfl

/-- A serialized document list parses back, past any already-accumulated
prefix of the traversal. -/
theorem mapM_loop_parseDoc_serializeDoc (docs acc : List Document) :
    List.mapM.loop parseDoc (docs.map serializeDoc) acc
      = .ok (acc.reverse ++ docs) := by
  induction docs generalizing acc with
  | nil => simp [List.mapM.loop, pure, Except.pure]
  | cons d rest ih =>
    simp [List.mapM.loop, parseDoc_serializeDoc, bind, Except.bind, ih]

/-- A serialized document list parses back to itself, in order. -/
theorem mapM_parseDoc_serializeDoc (docs : List Document) :
    (docs.map serializeDoc).mapM parseDoc = .ok docs := by
  simp [List.mapM, mapM_loop_parseDoc_serializeDoc]

/-- C10. Writing a document list with `handle_output` and reading it
back with `load_input` under the same asset key returns the same list: the
same length, the same order, and for each document the same `page_content`
and `metadata` (metadata lives in the JSON-value domain, i.e. is
JSON-serializable). -/
theorem document_io_manager_roundtrip (store : FileStore) (key : String)
    (docs : List Document) :
    load_input (handle_output store key docs) key = .ok docs := by
  simp [load_input, handle_output, JValue.iter, bind, Except.bind,
    mapM_parseDoc_serializeDoc, mapM_loop_parseDoc_serializeDoc]

/-- C3 (counterexample). A record *holding null* for `reactions` is not
normalized into a document: `item.get("reactions", {})` returns the stored
`None` (the default applies only to a missing key), `.get("totalCount", 0)`
on `None` raises `AttributeError`, and the per-item handler drops the
record (one error logged, zero documents). -/
theorem null_reactions_issue_dropped :
    convertIssueItem (.obj [("reactions", .null)]) = .error .attributeError
  ∧ convert_issues_to_documents [.obj [("reactions", .null)]] = ([], 1) :=
  ⟨rfl, rfl⟩

/-- C3 (amended). For records whose optional keys are *missing* (rather
than held as null) — `reactions`, `labels`, `comments` for issues;
`category`, `answer`, `labels`, `comments` for discussions — no
normalization step raises and the record is normalized into a document. A
record holding null for such a key raises in-step and is dropped by the
per-item handler instead. -/
theorem sparse_records_normalize (fs gs : List (String × JValue))
    (hr : fs.lookup "reactions" = none)
    (hl : fs.lookup "labels" = none)
    (hc : fs.lookup "comments" = none)
    (hgc : gs.lookup "category" = none)
    (hga : gs.lookup "answer" = none)
    (hgl : gs.lookup "labels" = none)
    (hgm : gs.lookup "comments" = none) :
    isOkE (convertIssueItem (.obj fs)) = true
  ∧ isOkE (convertDiscussionItem (.obj gs)) = true := by
  constructor
  · simp [convertIssueItem, issueMetadata, JValue.get1, JValue.getD, hr,
      labelsBlock_no_labels fs hl, issueCommentSection_no_comments fs hc,
      bind, Except.bind, pure, Except.pure, isOkE]
  · simp [convertDiscussionItem, discussionMetadata, JValue.get1,
      JValue.getD, hgc, answerSection_no_answer gs hga,
      discussionCommentSection_no_comments gs hgm,
      labelsBlock_no_labels gs hgl, bind, Except.bind, pure, Except.pure,
      isOkE]

/-- Witness for the amended C3 at records carrying only a title. -/
theorem sparse_records_normalize_witness :
    isOkE (convertIssueItem (.obj [("title", .str "T")])) = true
  ∧ isOkE (convertDiscussionItem (.obj [("title", .str "D")])) = true :=
  sparse_records_normalize [("title", .str "T")] [("title", .str "D")]
    rfl rfl rfl rfl rfl rfl rfl

/-- C6. An issue record with no `labels` key and no `comments` key that
normalizes yields exactly the three blocks `Title:`, `State:`,
`Description:`, in that order, joined by blank lines — no `Labels:` or
`Comment:` block. -/
theorem issue_without_labels_or_comments_three_blocks
    (fs : List (String × JValue)) (doc : Document)
    (hl : fs.lookup "labels" = none) (hc : fs.lookup "comments" = none)
    (h : convertIssueItem (.obj fs) = .ok doc) :
    doc.page_content =
      String.intercalate "\n\n"
        ["Title: " ++ ((fs.lookup "title").getD (.str "")).pyStr,
         "State: " ++ ((fs.lookup "state").getD (.str "")).pyStr,
         "Description: " ++ ((fs.lookup "bodyText").getD (.str "")).pyStr] := by
  simp only [convertIssueItem, bind_ok_iff, JValue.getD,
    labelsBlock_no_labels fs hl, issueCommentSection_no_comments fs hc,
    pure, Except.pure, Except.ok.injEq, exists_eq_left, exists_eq_left'] at h
  obtain ⟨md, -, hdoc⟩ := h
  subst hdoc
  simp

/-- Witness for C6 at a concrete title/state/body issue record. -/
theorem issue_without_labels_or_comments_three_blocks_witness :
    issueSampleDoc.page_content =
      String.intercalate "\n\n"
        ["Title: " ++ ((issueSampleFields.lookup "title").getD (.str "")).pyStr,
         "State: " ++ ((issueSampleFields.lookup "state").getD (.str "")).pyStr,
         "Description: "
           ++ ((issueSampleFields.lookup "bodyText").getD (.str "")).pyStr] :=
  issue_without_labels_or_comments_three_blocks issueSampleFields
    issueSampleDoc rfl rfl rfl

/-- C9. The entry `metadata["source"]` always identifies the content origin:
`github_issue` for every document produced by issue normalization,
`github_discussion` for every document produced by discussion
normalization, and the literal scraped URL for every document produced by
`scrape_url`. -/
theorem metadata_source_identifies_origin :
    (∀ item doc, convertIssueItem item = .ok doc →
        doc.metadata.lookup "source" = some (.str "github_issue"))
  ∧ (∀ item doc, convertDiscussionItem item = .ok doc →
        doc.metadata.lookup "source" = some (.str "github_discussion"))
  ∧ (∀ url fetched doc, scrape_url url fetched = some doc →
        doc.metadata.lookup "source" = some (.str url)) := by
  refine ⟨?_, ?_, ?_⟩
  · intro item doc h
    simp only [convertIssueItem, bind_ok_iff, pure, Except.pure,
      Except.ok.injEq] at h
    obtain ⟨md, hmd, a₁, -, a₂, -, a₃, -, a₄, -, a₅, -, hdoc⟩ := h
    subst hdoc
    exact issueMetadata_source item md hmd
  · intro item doc h
    simp only [convertDiscussionItem, bind_ok_iff, pure, Except.pure,
      Except.ok.injEq] at h
    obtain ⟨md, hmd, a₁, -, a₂, -, a₃, -, a₄, -, a₅, -, a₆, -, a₇, -, hdoc⟩ := h
    subst hdoc
    exact discussionMetadata_source item md hmd
  · intro url fetched doc h
    cases fetched with
    | error e =>
      rw [show scrape_url url (.error e) = none from rfl] at h
      exact Option.noConfusion h
    | ok root =>
      rw [show scrape_url url (.ok root) = some (scrapeBodyDoc url root)
        from rfl] at h
      injection h with h'
      subst h'
      rfl

/-- The discussion comment loop over comments `{"bodyText": b}` keeps, in
order, exactly the bodies that differ from the accepted answer's body. -/
theorem discussionComments_mkDiscussion (t c q a : String)
    (allB bodies : List String) :
    discussionComments (mkDiscussion t c q a allB) (bodies.map mkComment) =
      .ok ((bodies.filter (fun b => !(b == a))).map
        (fun b => "Comment: " ++ b)) := by
  induction bodies with
  | nil => rfl
  | cons b rest ih =>
    have h₁ : (mkComment b).pyTruthy = true := rfl
    have h₂ : (mkComment b).hasKey "bodyText" = .ok true := rfl
    have h₃ : (mkDiscussion t c q a allB).get1 "answer"
        = .ok (.obj [("bodyText", .str a)]) := rfl
    have h₄ : (mkComment b).item "bodyText" = .ok (.str b) := rfl
    have h₅ : (mkDiscussion t c q a allB).item "answer"
        = .ok (.obj [("bodyText", .str a)]) := rfl
    have h₆ : JValue.get1 (.obj [("bodyText", .str a)]) "bodyText"
        = .ok (.str a) := rfl
    have h₇ : JValue.pyEq (.str b) (.str a) = (b == a) := rfl
    have h₈ : (JValue.obj [("bodyText", JValue.str a)]).pyTruthy = true := rfl
    simp only [List.map_cons, discussionComments, h₁, h₂, h₃, h₄, h₅, h₆, h₇,
      h₈, bind, Except.bind, pure, Except.pure, if_true, List.filter_cons]
    cases hb : b == a <;> simp [hb, ih, JValue.pyStr]

/-- C4. For every discussion record with an accepted answer (embedded
as `mkDiscussion`, an arbitrary title/category/question/answer body with an
arbitrary list of comment bodies), normalization emits the `Accepted
Answer:` block and one `Comment:` block for exactly those comments whose
body text differs from the answer's body text, in order. In particular,
`bodies = [a]` (a sole comment equal to the answer) contributes no
`Comment:` block. -/
theorem discussion_answer_dedup (t c q a : String) (bodies : List String) :
    convertDiscussionItem (mkDiscussion t c q a bodies) =
      .ok ⟨String.intercalate "\n\n"
          (["Title: " ++ t, "Category: " ++ c, "Question: " ++ q,
            "Accepted Answer: " ++ a]
            ++ (bodies.filter (fun b => !(b == a))).map
                (fun b => "Comment: " ++ b)),
        [("source", .str "github_discussion"), ("id", .null), ("url", .null),
         ("created_at", .null), ("title", .str t), ("number", .null),
         ("category", .str c), ("is_answered", .bool false),
         ("upvote_count", .num 0)]⟩ := by
  have hmd : discussionMetadata (mkDiscussion t c q a bodies) =
      .ok [("source", .str "github_discussion"), ("id", .null),
           ("url", .null), ("created_at", .null), ("title", .str t),
           ("number", .null), ("category", .str c),
           ("is_answered", .bool false), ("upvote_count", .num 0)] := rfl
  have ht : (mkDiscussion t c q a bodies).getD "title" (.str "")
      = .ok (.str t) := rfl
  have hcv : (mkDiscussion t c q a bodies).getD "category" (.obj [])
      = .ok (.obj [("name", .str c)]) := rfl
  have hcn : (JValue.obj [("name", .str c)]).getD "name" (.str "Uncategorized")
      = .ok (.str c) := rfl
  have hq : (mkDiscussion t c q a bodies).getD "bodyText" (.str "")
      = .ok (.str q) := rfl
  have hans : answerSection (mkDiscussion t c q a bodies)
      = .ok ["Accepted Answer: " ++ a] := rfl
  have hsec : discussionCommentSection (mkDiscussion t c q a bodies)
      = .ok ((bodies.filter (fun b => !(b == a))).map
          (fun b => "Comment: " ++ b)) := by
    rw [show discussionCommentSection (mkDiscussion t c q a bodies)
        = discussionComments (mkDiscussion t c q a bodies)
            (bodies.map mkComment) from rfl]
    exact discussionComments_mkDiscussion t c q a bodies bodies
  have hlb : labelsBlock (mkDiscussion t c q a bodies) = .ok [] := rfl
  simp only [convertDiscussionItem, hmd, ht, hcv, hcn, hq, hans, hsec, hlb,
    bind, Except.bind, pure, Except.pure, JValue.pyStr, List.append_nil,
    List.cons_append, List.nil_append]

/-- The converter distributes over list concatenation: documents in order,
error counts added. -/
theorem convert_issues_append (xs ys : List JValue) :
    convert_issues_to_documents (xs ++ ys)
      = ((convert_issues_to_documents xs).1
           ++ (convert_issues_to_documents ys).1,
         (convert_issues_to_documents xs).2
           + (convert_issues_to_documents ys).2) := by
  induction xs with
  | nil => simp [convert_issues_to_documents]
  | cons i rest ih =>
    cases h : convertIssueItem i with
    | ok d => simp [convert_issues_to_documents, h, ih]
    | error e =>
      simp [convert_issues_to_documents, h, ih]
      omega

/-- A list of records that all normalize produces one document per record
and no error. -/
theorem convert_issues_all_ok (xs : List JValue)
    (h : ∀ i ∈ xs, isOkE (convertIssueItem i) = true) :
    (convert_issues_to_documents xs).1.length = xs.length
  ∧ (convert_issues_to_documents xs).2 = 0 := by
  induction xs with
  | nil => simp [convert_issues_to_documents]
  | cons i rest ih =>
    have hi := h i (List.mem_cons_self i rest)
    have hrest := ih (fun j hj => h j (List.mem_cons_of_mem i hj))
    cases hc : convertIssueItem i with
    | ok d => simp [convert_issues_to_documents, hc, hrest.1, hrest.2]
    | error e => rw [hc] at hi; simp [isOkE] at hi

/-- C5. When exactly one item of a raw issue list fails normalization,
`convert_issues_to_documents` returns one document per remaining item
(`N - 1` in total), logs exactly one error, keeps the surviving documents
in their original order, and does not abort. -/
theorem issues_one_failing_item_skipped (pre post : List JValue)
    (bad : JValue)
    (hbad : isOkE (convertIssueItem bad) = false)
    (hpre : ∀ i ∈ pre, isOkE (convertIssueItem i) = true)
    (hpost : ∀ i ∈ post, isOkE (convertIssueItem i) = true) :
    (convert_issues_to_documents (pre ++ bad :: post)).1.length
        = (pre ++ bad :: post).length - 1
  ∧ (convert_issues_to_documents (pre ++ bad :: post)).2 = 1
  ∧ (convert_issues_to_documents (pre ++ bad :: post)).1
        = (convert_issues_to_documents pre).1
            ++ (convert_issues_to_documents post).1 := by
  have h₁ := convert_issues_all_ok pre hpre
  have h₂ := convert_issues_all_ok post hpost
  have happ := convert_issues_append pre (bad :: post)
  have hstep : convert_issues_to_documents (bad :: post)
      = ((convert_issues_to_documents post).1,
         (convert_issues_to_documents post).2 + 1) := by
    cases hc : convertIssueItem bad with
    | ok d => rw [hc] at hbad; simp [isOkE] at hbad
    | error e => simp [convert_issues_to_documents, hc]
  refine ⟨?_, ?_, ?_⟩
  · rw [happ, hstep]
    simp [List.length_append, h₁.1, h₂.1]
  · rw [happ, hstep]
    simp [h₁.2, h₂.2]
  · rw [happ, hstep]

/-- Witness for C5: a three-item list whose middle record holds null for
`reactions` yields two documents and one logged error. -/
theorem issues_one_failing_item_skipped_witness :
    (convert_issues_to_documents
        ([JValue.obj []] ++ issueBadRecord :: [JValue.obj issueSampleFields])).1.length
      = ([JValue.obj []] ++ issueBadRecord :: [JValue.obj issueSampleFields]).length - 1
  ∧ (convert_issues_to_documents
        ([JValue.obj []] ++ issueBadRecord :: [JValue.obj issueSampleFields])).2 = 1
  ∧ (convert_issues_to_documents
        ([JValue.obj []] ++ issueBadRecord :: [JValue.obj issueSampleFields])).1
      = (convert_issues_to_documents [JValue.obj []]).1
          ++ (convert_issues_to_documents [JValue.obj issueSampleFields]).1 :=
  issues_one_failing_item_skipped [JValue.obj []] [JValue.obj issueSampleFields]
    issueBadRecord rfl (by decide) (by decide)

/-- C8. For every stripped-clean, non-empty content text `s` and every
noise text `t`: a page whose content region holds `s` next to a `<script>`
subtree holding `t` scrapes to `page_content = s` — the `script` subtree is
removed before extraction — and the content region is chosen by preference
`main`, else `article`, else `body` (one conjunct per shape). In
particular, at `s = "Hello"`, `t = "ignored"` the page content is
`"Hello"`. -/
theorem scrape_prefers_main_strips_noise (url s t : String)
    (hs : pyStrip s = s) (hne : s ≠ "") :
    scrape_url url (.ok (mainPage s t))
        = some ⟨s, [("source", .str url), ("title", .str "")]⟩
  ∧ scrape_url url (.ok (articlePage s t))
        = some ⟨s, [("source", .str url), ("title", .str "")]⟩
  ∧ scrape_url url (.ok (bodyOnlyPage s t))
        = some ⟨s, [("source", .str url), ("title", .str "")]⟩ := by
  have hgo : ∀ a : String, String.intercalate.go a "\n" [] = a := fun a => rfl
  refine ⟨?_, ?_, ?_⟩ <;>
    simp [scrape_url, scrapeUrlBody, scrapeBodyDoc, mainPage, articlePage,
      bodyOnlyPage, decomposeTags, decomposeTagsList, removedTags, findTag,
      findTagList, strippedStrings, texts, textsList, hstring, hs,
      List.filter_cons, decide_eq_true_eq, hne, bind, Except.bind, pure,
      Except.pure, Option.orElse, String.intercalate, hgo]

/-- Witness for C8 at the spec's own example: `<main>` text `"Hello"`,
`<script>` text `"ignored"`. -/
theorem scrape_prefers_main_strips_noise_witness :
    pyStrip "Hello" = "Hello"
  ∧ scrape_url "https://example.com/page"
      (.ok (mainPage "Hello" "ignored"))
      = some ⟨"Hello", [("source", .str "https://example.com/page"),
                        ("title", .str "")]⟩ :=
  ⟨rfl, (scrape_prefers_main_strips_noise "https://example.com/page" "Hello"
    "ignored" rfl (by decide)).1⟩

/-- Witness for C9 at concrete empty records and a bare text page. -/
theorem metadata_source_identifies_origin_witness :
    issueEmptyDoc.metadata.lookup "source" = some (.str "github_issue")
  ∧ discussionEmptyDoc.metadata.lookup "source"
      = some (.str "github_discussion")
  ∧ scrapedSampleDoc.metadata.lookup "source"
      = some (.str "https://example.com/a") :=
  ⟨metadata_source_identifies_origin.1 (.obj []) issueEmptyDoc rfl,
   metadata_source_identifies_origin.2.1 (.obj []) discussionEmptyDoc rfl,
   metadata_source_identifies_origin.2.2 "https://example.com/a"
     (.ok (.text "hi")) scrapedSampleDoc rfl⟩

end AskAI
